import Mathlib

/- Verification of the banking-api-client aggregation workflow.

The development below is a shallow embedding of `banking_api_client.py`:
the class `BankingAPIClient` becomes pure functions over an explicit
client state (token, token type) and an explicit network environment
(a map from HTTP requests to HTTP responses), and the class
`BankingDataCollector` becomes pure functions composing them.  Each
operation returns the outcome (an `Except` value mirroring the Python
return-or-raise behaviour) paired with the list of HTTP requests it
issued, in order.  Decoded JSON payloads are modelled by an inductive
`Json` type; the Python value `None` is identified with JSON `null`
(as `json.loads` does). -/

namespace BankingApi

/- ===================== JSON values ===================== -/

/-- Decoded JSON values, as produced by `response.json()`.  Numbers are
modelled as integers (no claim involves non-integral numerics); object
fields are kept in insertion order and are assumed duplicate-free, as
for any dict produced by `json.loads`. -/
inductive Json where
  | null
  | bool (b : Bool)
  | num (n : Int)
  | str (s : String)
  | arr (items : List Json)
  | obj (fields : List (String × Json))

/-- Python truthiness of a decoded JSON value (`if not self.token`):
`None`, `False`, `0`, `""`, `[]` and `\x7b\x7d` are falsy. -/
def truthy : Json → Bool
  | .null => false
  | .bool b => b
  | .num n => n != 0
  | .str s => !(s = "")
  | .arr items => !items.isEmpty
  | .obj fields => !fields.isEmpty

mutual

/-- Python `repr` of a decoded JSON value (string escaping inside
`repr` of a string is not modelled; no claim depends on it). -/
def pyRepr : Json → String
  | .null => "None"
  | .bool b => if b then "True" else "False"
  | .num n => toString n
  | .str s => "\x27" ++ s ++ "\x27"
  | .arr items => "[" ++ pyReprList items ++ "]"
  | .obj fields => "\x7b" ++ pyReprFields fields ++ "\x7d"

/-- Comma-separated `repr` of list elements. -/
def pyReprList : List Json → String
  | [] => ""
  | [x] => pyRepr x
  | x :: xs => pyRepr x ++ ", " ++ pyReprList xs

/-- Comma-separated `repr` of dict entries. -/
def pyReprFields : List (String × Json) → String
  | [] => ""
  | [(k, v)] => "\x27" ++ k ++ "\x27: " ++ pyRepr v
  | (k, v) :: fs => "\x27" ++ k ++ "\x27: " ++ pyRepr v ++ ", " ++ pyReprFields fs

end

/-- Python `str()` of a decoded JSON value, as used by f-string
interpolation (`f"...\x7baccount_id\x7d..."`): a string renders as
itself, everything else as its `repr`; in particular `None` renders
as the literal text `None`. -/
def pyStr : Json → String
  | .str s => s
  | j => pyRepr j

/-- Python `dict.get(key)`: the stored value, or `None` when the key
is absent. -/
def pyDictGet (fields : List (String × Json)) (k : String) : Json :=
  (List.lookup k fields).getD .null

/-- Python `dict.get(key, default)`. -/
def pyDictGetD (fields : List (String × Json)) (k : String) (dflt : Json) : Json :=
  (List.lookup k fields).getD dflt

/-- Python `d[key] = v` on a dict: replace the value of an existing
key in place, otherwise append the new key at the end. -/
def dictSet : List (String × Json) → String → Json → List (String × Json)
  | [], k, v => [(k, v)]
  | (k', v') :: rest, k, v =>
      if k' = k then (k, v) :: rest else (k', v') :: dictSet rest k v

/-- Field lookup on a JSON value, for stating theorems: `some v` when
the value is an object carrying the key, `none` otherwise. -/
def jsonField (j : Json) (k : String) : Option Json :=
  match j with
  | .obj fields => List.lookup k fields
  | _ => none

/-- The `id` entry of an account record as the aggregation loop reads
it (`account.get("id")`): `None` when absent or when the record is not
an object. -/
def accountIdOf : Json → Json
  | .obj fields => pyDictGet fields "id"
  | _ => .null

/- ===================== HTTP model ===================== -/

/-- One HTTP request as issued through the `requests` / `aiohttp`
session: method, full URL, headers, and form-encoded body (empty for
GET requests). -/
structure Request where
  method : String
  url : String
  headers : List (String × String)
  formData : List (String × String)

/-- One HTTP response: status code and decoded JSON body (`none` when
the body is not valid JSON, in which case `response.json()` raises). -/
structure HttpResponse where
  status : Nat
  jsonBody : Option Json

/-- The network: a deterministic map from requests to responses (the
role played by the stub transport in the repository's unit tests). -/
def Env := Request → HttpResponse

/-- A GET request with the given URL and headers. -/
def getRequest (url : String) (headers : List (String × String)) : Request :=
  { method := "GET", url := url, headers := headers, formData := [] }

/-- Exceptions the Python code can raise, restricted to the paths the
claims exercise.  `modeMismatch` is the `RuntimeError` of the sync /
async guards; `notAuthenticated` is the `ValueError` of
`_get_headers`; `httpError` is `raise_for_status`;
`jsonDecodeError` is `response.json()` on a non-JSON body;
`attributeError` is `.get` on a non-dict; `typeError` is iterating a
non-iterable value. -/
inductive PyError where
  | modeMismatch (msg : String)
  | notAuthenticated
  | httpError (status : Nat)
  | jsonDecodeError
  | attributeError
  | typeError

/-- `response.raise_for_status()`: raises exactly for status codes in
[400, 600). -/
def raiseForStatus (status : Nat) : Except PyError Unit :=
  if 400 ≤ status ∧ status < 600 then .error (.httpError status) else .ok ()

/- ===================== client: construction ===================== -/

/-- Construction-time configuration of `BankingAPIClient`: `base_url`
(already stripped of trailing slashes), credentials, and the
`use_async` mode flag, all fixed by `__init__`. -/
structure ClientConfig where
  base_url : String
  username : String
  password : String
  use_async : Bool

/-- Mutable client state: `self.token` (initially `None`) and
`self.token_type` (initially the string `"bearer"`).  The transport
session handle is represented by the ambient `Env`; all claims are
about clients used inside their context manager, where the session
exists. -/
structure ClientState where
  token : Json
  token_type : Json

/-- State established by `__init__`: no token yet, default token type. -/
def initState : ClientState := { token := .null, token_type := .str "bearer" }

/-- Python `base_url.rstrip("/")`. -/
def rstripSlashes (s : String) : String :=
  String.mk ((s.data.reverse.dropWhile (fun c => c = Char.ofNat 47)).reverse)

/-- `BankingAPIClient.__init__`: strip trailing slashes off the base
URL and record the credentials and mode. -/
def mkClientConfig (base_url username password : String) (use_async : Bool) : ClientConfig :=
  { base_url := rstripSlashes base_url, username := username,
    password := password, use_async := use_async }

/- ===================== client: authentication ===================== -/

/-- The token request `authenticate` posts: form-encoded credentials
with the fixed scope `"stet"` to `\x7bbase\x7d/oauth/token`. -/
def authRequest (cfg : ClientConfig) : Request :=
  { method := "POST"
  , url := cfg.base_url ++ "/oauth/token"
  , headers := [("Content-Type", "application/x-www-form-urlencoded")]
  , formData := [("username", cfg.username), ("password", cfg.password), ("scope", "stet")] }

/-- Body of `authenticate` after its mode guard: POST the token
request, `raise_for_status`, decode the body, then store
`data.get("access_token")` and `data.get("token_type", "bearer")` and
return the stored token.  Note the source does not check that
`access_token` is present: an absent key stores and returns `None`. -/
def authenticateCore (cfg : ClientConfig) (env : Env) (_st : ClientState) :
    (Except PyError (Json × ClientState)) × List Request :=
  let req := authRequest cfg
  let resp := env req
  match raiseForStatus resp.status with
  | .error e => (.error e, [req])
  | .ok _ =>
    match resp.jsonBody with
    | none => (.error .jsonDecodeError, [req])
    | some (.obj fields) =>
      let st' : ClientState :=
        { token := pyDictGet fields "access_token"
        , token_type := pyDictGetD fields "token_type" (.str "bearer") }
      (.ok (st'.token, st'), [req])
    | some _ => (.error .attributeError, [req])

/-- `BankingAPIClient.authenticate` (sync): guarded against async
mode, then `authenticateCore`. -/
def authenticate (cfg : ClientConfig) (env : Env) (st : ClientState) :
    (Except PyError (Json × ClientState)) × List Request :=
  if cfg.use_async then
    (.error (.modeMismatch "Use authenticate_async for async mode"), [])
  else authenticateCore cfg env st

/-- `BankingAPIClient.authenticate_async`: guarded against sync mode;
its body is line-for-line the awaited form of `authenticateCore`. -/
def authenticate_async (cfg : ClientConfig) (env : Env) (st : ClientState) :
    (Except PyError (Json × ClientState)) × List Request :=
  if !cfg.use_async then
    (.error (.modeMismatch "Use authenticate for sync mode"), [])
  else authenticateCore cfg env st

/- ===================== client: authenticated GETs ===================== -/

/-- `BankingAPIClient._get_headers`: raises the not-authenticated
`ValueError` when the stored token is falsy (`if not self.token`),
otherwise the Authorization and Content-Type headers built from the
stored token type and token. -/
def get_headers (st : ClientState) : Except PyError (List (String × String)) :=
  if truthy st.token then
    .ok [("Authorization", pyStr st.token_type ++ " " ++ pyStr st.token),
         ("Content-Type", "application/json")]
  else .error .notAuthenticated

/-- Shared body of every authenticated GET endpoint: build headers
(raising before any request is issued when unauthenticated), issue
the GET, `raise_for_status`, decode the JSON body. -/
def authorizedGet (env : Env) (st : ClientState) (url : String) :
    (Except PyError Json) × List Request :=
  match get_headers st with
  | .error e => (.error e, [])
  | .ok hs =>
    let req := getRequest url hs
    let resp := env req
    match raiseForStatus resp.status with
    | .error e => (.error e, [req])
    | .ok _ =>
      match resp.jsonBody with
      | none => (.error .jsonDecodeError, [req])
      | some j => (.ok j, [req])

/-- URL of the identity endpoint. -/
def identityUrl (cfg : ClientConfig) : String :=
  cfg.base_url ++ "/stet/identity"

/-- URL of the account-list endpoint. -/
def accountsUrl (cfg : ClientConfig) : String :=
  cfg.base_url ++ "/stet/account"

/-- URL of the single-account endpoint; the account id is rendered by
f-string interpolation (`str()`), so a `None` id renders as the
literal path segment `None`. -/
def accountUrl (cfg : ClientConfig) (account_id : Json) : String :=
  cfg.base_url ++ ("/stet/account/" ++ pyStr account_id)

/-- URL of the balances endpoint for an account. -/
def balancesUrl (cfg : ClientConfig) (account_id : Json) : String :=
  cfg.base_url ++ ("/stet/account/" ++ (pyStr account_id ++ "/balance"))

/-- URL of the transactions endpoint for an account. -/
def transactionsUrl (cfg : ClientConfig) (account_id : Json) : String :=
  cfg.base_url ++ ("/stet/account/" ++ (pyStr account_id ++ "/transaction"))

/-- `BankingAPIClient.get_identity` (sync). -/
def get_identity (cfg : ClientConfig) (env : Env) (st : ClientState) :
    (Except PyError Json) × List Request :=
  if cfg.use_async then
    (.error (.modeMismatch "Use get_identity_async for async mode"), [])
  else authorizedGet env st (identityUrl cfg)

/-- `BankingAPIClient.get_identity_async`. -/
def get_identity_async (cfg : ClientConfig) (env : Env) (st : ClientState) :
    (Except PyError Json) × List Request :=
  if !cfg.use_async then
    (.error (.modeMismatch "Use get_identity for sync mode"), [])
  else authorizedGet env st (identityUrl cfg)

/-- `BankingAPIClient.get_accounts` (sync). -/
def get_accounts (cfg : ClientConfig) (env : Env) (st : ClientState) :
    (Except PyError Json) × List Request :=
  if cfg.use_async then
    (.error (.modeMismatch "Use get_accounts_async for async mode"), [])
  else authorizedGet env st (accountsUrl cfg)

/-- `BankingAPIClient.get_accounts_async`. -/
def get_accounts_async (cfg : ClientConfig) (env : Env) (st : ClientState) :
    (Except PyError Json) × List Request :=
  if !cfg.use_async then
    (.error (.modeMismatch "Use get_accounts for sync mode"), [])
  else authorizedGet env st (accountsUrl cfg)

/-- `BankingAPIClient.get_account` (sync). -/
def get_account (cfg : ClientConfig) (env : Env) (st : ClientState) (account_id : Json) :
    (Except PyError Json) × List Request :=
  if cfg.use_async then
    (.error (.modeMismatch "Use get_account_async for async mode"), [])
  else authorizedGet env st (accountUrl cfg account_id)

/-- `BankingAPIClient.get_account_async`. -/
def get_account_async (cfg : ClientConfig) (env : Env) (st : ClientState) (account_id : Json) :
    (Except PyError Json) × List Request :=
  if !cfg.use_async then
    (.error (.modeMismatch "Use get_account for sync mode"), [])
  else authorizedGet env st (accountUrl cfg account_id)

/-- `BankingAPIClient.get_balances` (sync). -/
def get_balances (cfg : ClientConfig) (env : Env) (st : ClientState) (account_id : Json) :
    (Except PyError Json) × List Request :=
  if cfg.use_async then
    (.error (.modeMismatch "Use get_balances_async for async mode"), [])
  else authorizedGet env st (balancesUrl cfg account_id)

/-- `BankingAPIClient.get_balances_async`. -/
def get_balances_async (cfg : ClientConfig) (env : Env) (st : ClientState) (account_id : Json) :
    (Except PyError Json) × List Request :=
  if !cfg.use_async then
    (.error (.modeMismatch "Use get_balances for sync mode"), [])
  else authorizedGet env st (balancesUrl cfg account_id)

/-- `BankingAPIClient.get_transactions` (sync). -/
def get_transactions (cfg : ClientConfig) (env : Env) (st : ClientState) (account_id : Json) :
    (Except PyError Json) × List Request :=
  if cfg.use_async then
    (.error (.modeMismatch "Use get_transactions_async for async mode"), [])
  else authorizedGet env st (transactionsUrl cfg account_id)

/-- `BankingAPIClient.get_transactions_async`. -/
def get_transactions_async (cfg : ClientConfig) (env : Env) (st : ClientState) (account_id : Json) :
    (Except PyError Json) × List Request :=
  if !cfg.use_async then
    (.error (.modeMismatch "Use get_transactions for sync mode"), [])
  else authorizedGet env st (transactionsUrl cfg account_id)

/- ===================== data collector ===================== -/

/-- The composite document built by `collect_all_data`: the dict
`\x7b"identity": identity, "accounts": accounts\x7d`, with `accounts`
the (augmented) account list. -/
structure AggregatedResult where
  identity : Json
  accounts : List Json

/-- Python iteration (`for account in accounts`) over a decoded JSON
value: a list iterates its elements, a dict its keys, a string its
characters; other values raise `TypeError`. -/
def pyIter : Json → Except PyError (List Json)
  | .arr items => .ok items
  | .obj fields => .ok (fields.map (fun p => .str p.1))
  | .str s => .ok (s.data.map (fun c => .str (String.mk [c])))
  | _ => .error .typeError

/-- Body of the per-account aggregation loop (sync), for one account:
`account_id = account.get("id")` (an `AttributeError` when the account
is not a dict, `None` when the key is absent), then fetch balances,
then fetch transactions, then store both into the account record.
The stores are in-place dict assignments in the source; the returned
value is the resulting record contents (see `accountRecordAfterLoop`
for the aliasing consequence). -/
def augmentAccount (cfg : ClientConfig) (env : Env) (st : ClientState) (account : Json) :
    (Except PyError Json) × List Request :=
  match account with
  | .obj fields =>
    let account_id := pyDictGet fields "id"
    match get_balances cfg env st account_id with
    | (.error e, trB) => (.error e, trB)
    | (.ok bal, trB) =>
      match get_transactions cfg env st account_id with
      | (.error e, trT) => (.error e, trB ++ trT)
      | (.ok txs, trT) =>
        (.ok (.obj (dictSet (dictSet fields "balances" bal) "transactions" txs)),
         trB ++ trT)
  | _ => (.error .attributeError, [])

/-- The per-account loop of `collect_all_data` (sync), over the whole
account list, strictly sequentially and in list order; the first
failure aborts the loop. -/
def collectAccounts (cfg : ClientConfig) (env : Env) (st : ClientState) :
    List Json → (Except PyError (List Json)) × List Request
  | [] => (.ok [], [])
  | account :: rest =>
    match augmentAccount cfg env st account with
    | (.error e, trA) => (.error e, trA)
    | (.ok account', trA) =>
      match collectAccounts cfg env st rest with
      | (.error e, trR) => (.error e, trA ++ trR)
      | (.ok rest', trR) => (.ok (account' :: rest'), trA ++ trR)

/-- `BankingDataCollector.collect_all_data`: mode guard, then fetch
identity, then the account list, then run the per-account loop, and
assemble the result. -/
def collect_all_data (cfg : ClientConfig) (env : Env) (st : ClientState) :
    (Except PyError AggregatedResult) × List Request :=
  if cfg.use_async then
    (.error (.modeMismatch "Use collect_all_data_async for async mode"), [])
  else
    match get_identity cfg env st with
    | (.error e, trI) => (.error e, trI)
    | (.ok identity, trI) =>
      match get_accounts cfg env st with
      | (.error e, trA) => (.error e, trI ++ trA)
      | (.ok accountsJson, trA) =>
        match pyIter accountsJson with
        | .error e => (.error e, trI ++ trA)
        | .ok accountList =>
          match collectAccounts cfg env st accountList with
          | (.error e, trL) => (.error e, trI ++ trA ++ trL)
          | (.ok augmented, trL) =>
            (.ok { identity := identity, accounts := augmented }, trI ++ trA ++ trL)

/-- Body of the per-account aggregation loop of
`collect_all_data_async`, identical to the sync one except that it
awaits the async fetches. -/
def augmentAccountAsync (cfg : ClientConfig) (env : Env) (st : ClientState) (account : Json) :
    (Except PyError Json) × List Request :=
  match account with
  | .obj fields =>
    let account_id := pyDictGet fields "id"
    match get_balances_async cfg env st account_id with
    | (.error e, trB) => (.error e, trB)
    | (.ok bal, trB) =>
      match get_transactions_async cfg env st account_id with
      | (.error e, trT) => (.error e, trB ++ trT)
      | (.ok txs, trT) =>
        (.ok (.obj (dictSet (dictSet fields "balances" bal) "transactions" txs)),
         trB ++ trT)
  | _ => (.error .attributeError, [])

/-- The per-account loop of `collect_all_data_async`. -/
def collectAccountsAsync (cfg : ClientConfig) (env : Env) (st : ClientState) :
    List Json → (Except PyError (List Json)) × List Request
  | [] => (.ok [], [])
  | account :: rest =>
    match augmentAccountAsync cfg env st account with
    | (.error e, trA) => (.error e, trA)
    | (.ok account', trA) =>
      match collectAccountsAsync cfg env st rest with
      | (.error e, trR) => (.error e, trA ++ trR)
      | (.ok rest', trR) => (.ok (account' :: rest'), trA ++ trR)

/-- `BankingDataCollector.collect_all_data_async`: the awaited twin of
`collect_all_data`, guarded against sync mode; every await completes
before the next call is issued (the source deliberately does not
parallelise). -/
def collect_all_data_async (cfg : ClientConfig) (env : Env) (st : ClientState) :
    (Except PyError AggregatedResult) × List Request :=
  if !cfg.use_async then
    (.error (.modeMismatch "Use collect_all_data for sync mode"), [])
  else
    match get_identity_async cfg env st with
    | (.error e, trI) => (.error e, trI)
    | (.ok identity, trI) =>
      match get_accounts_async cfg env st with
      | (.error e, trA) => (.error e, trI ++ trA)
      | (.ok accountsJson, trA) =>
        match pyIter accountsJson with
        | .error e => (.error e, trI ++ trA)
        | .ok accountList =>
          match collectAccountsAsync cfg env st accountList with
          | (.error e, trL) => (.error e, trI ++ trA ++ trL)
          | (.ok augmented, trL) =>
            (.ok { identity := identity, accounts := augmented }, trI ++ trA ++ trL)

/-- Final contents of one account record held by the list object that
`get_accounts` returned, after the `collect_all_data` loop has
processed it.  The source assigns `account["balances"] = ...` and
`account["transactions"] = ...` directly into the dict held by that
list — no copy is taken — so after the loop the very record the
gateway returned carries the two extra keys; the record placed in the
result aliases it.  `fields` is the content of the record at fetch
time. -/
def accountRecordAfterLoop (cfg : ClientConfig) (env : Env) (st : ClientState)
    (fields : List (String × Json)) : Except PyError (List (String × Json)) :=
  let account_id := pyDictGet fields "id"
  match (get_balances cfg env st account_id).1 with
  | .error e => .error e
  | .ok bal =>
    match (get_transactions cfg env st account_id).1 with
    | .error e => .error e
    | .ok txs => .ok (dictSet (dictSet fields "balances" bal) "transactions" txs)

/- ===================== concrete stub data ===================== -/

/-- A 200 response with the given JSON body. -/
def ok200 (j : Json) : HttpResponse := { status := 200, jsonBody := some j }

/-- A response with the given status and no decodable body. -/
def respOnly (n : Nat) : HttpResponse := { status := n, jsonBody := none }

/-- A sync-mode client configuration for concrete runs. -/
def dCfg : ClientConfig :=
  { base_url := "https://bank.example", username := "u", password := "p", use_async := false }

/-- An async-mode client configuration for concrete runs. -/
def dCfgAsync : ClientConfig :=
  { base_url := "https://bank.example", username := "u", password := "p", use_async := true }

/-- An authenticated client state for concrete runs. -/
def dSt : ClientState := { token := .str "tok", token_type := .str "bearer" }

/-- The headers `_get_headers` builds from `dSt`. -/
def dHeaders : List (String × String) :=
  [("Authorization", "bearer tok"), ("Content-Type", "application/json")]

/-- Identity payload used by the stub network. -/
def jIdentity : Json := .obj [("id", .str "u1")]

/-- Balance payload used by the stub network. -/
def jBalances : Json := .arr [.obj [("amount", .num 100), ("currency", .str "EUR")]]

/-- An account record with only an id. -/
def jAcct (i : String) : Json := .obj [("id", .str i)]

/-- An account record after the loop stored balances and transactions. -/
def jAcctAug (i : String) : Json :=
  .obj [("id", .str i), ("balances", jBalances), ("transactions", .arr [])]

/-- The result `collect_all_data` produces on the all-success stub
network `envOk`. -/
def dResOk : AggregatedResult :=
  { identity := jIdentity, accounts := [jAcctAug "a1", jAcctAug "a2"] }

/-- The request trace `collect_all_data` produces on `envOk`. -/
def dTrOk : List Request :=
  [ getRequest (identityUrl dCfg) dHeaders,
    getRequest (accountsUrl dCfg) dHeaders,
    getRequest (balancesUrl dCfg (.str "a1")) dHeaders,
    getRequest (transactionsUrl dCfg (.str "a1")) dHeaders,
    getRequest (balancesUrl dCfg (.str "a2")) dHeaders,
    getRequest (transactionsUrl dCfg (.str "a2")) dHeaders ]

/-- Stub network on which every fetch succeeds: two accounts `a1`,
`a2`, each with one balance record and no transactions. -/
def envOk : Env := fun req =>
  if req.url = "https://bank.example/stet/identity" then ok200 jIdentity
  else if req.url = "https://bank.example/stet/account" then
    ok200 (.arr [jAcct "a1", jAcct "a2"])
  else if req.url = "https://bank.example/stet/account/a1/balance" then ok200 jBalances
  else if req.url = "https://bank.example/stet/account/a2/balance" then ok200 jBalances
  else if req.url = "https://bank.example/stet/account/a1/transaction" then ok200 (.arr [])
  else if req.url = "https://bank.example/stet/account/a2/transaction" then ok200 (.arr [])
  else respOnly 404

/-- Stub network with three accounts on which the balances fetch of
the second account fails with a 500. -/
def envFail2 : Env := fun req =>
  if req.url = "https://bank.example/stet/identity" then ok200 jIdentity
  else if req.url = "https://bank.example/stet/account" then
    ok200 (.arr [jAcct "a1", jAcct "a2", jAcct "a3"])
  else if req.url = "https://bank.example/stet/account/a1/balance" then ok200 jBalances
  else if req.url = "https://bank.example/stet/account/a1/transaction" then ok200 (.arr [])
  else if req.url = "https://bank.example/stet/account/a2/balance" then respOnly 500
  else respOnly 404

/-- Stub network whose account list holds one record with no `id`
key; the stub answers the balance and transaction fetches at the
literal path segment `None`. -/
def envNoId : Env := fun req =>
  if req.url = "https://bank.example/stet/identity" then ok200 jIdentity
  else if req.url = "https://bank.example/stet/account" then ok200 (.arr [.obj []])
  else if req.url = "https://bank.example/stet/account/None/balance" then ok200 jBalances
  else if req.url = "https://bank.example/stet/account/None/transaction" then ok200 (.arr [])
  else respOnly 404

/-- Stub token endpoint answering 200 with a body that carries no
`access_token`. -/
def envNoToken : Env := fun req =>
  if req.url = "https://bank.example/oauth/token" then
    ok200 (.obj [("token_type", .str "mytype")])
  else respOnly 404

/-- Stub token endpoint answering 200 with an empty-string
`access_token`. -/
def envEmptyToken : Env := fun req =>
  if req.url = "https://bank.example/oauth/token" then
    ok200 (.obj [("access_token", .str ""), ("token_type", .str "bearer")])
  else respOnly 404

/-- Stub token endpoint answering 200 with a normal token. -/
def envGoodToken : Env := fun req =>
  if req.url = "https://bank.example/oauth/token" then
    ok200 (.obj [("access_token", .str "tok"), ("token_type", .str "bearer")])
  else respOnly 404

/-- Stub token endpoint answering 401 with no decodable body. -/
def envAuthReject : Env := fun _ => respOnly 401

/- ===================== dictionary lemmas ===================== -/

/-- Looking up the key just stored by a dict assignment yields the
stored value. -/
theorem lookup_dictSet_self (fs : List (String × Json)) (k : String) (v : Json) :
    List.lookup k (dictSet fs k v) = some v := by
  induction fs with
  | nil => simp [dictSet, List.lookup]
  | cons p rest ih =>
    obtain ⟨k', v'⟩ := p
    by_cases h : k' = k
    · subst h
      simp [dictSet, List.lookup]
    · have hb : (k == k') = false := beq_eq_false_iff_ne.mpr (Ne.symm h)
      simp [dictSet, h, List.lookup, ih, hb]

/-- A dict assignment leaves the value of every other key unchanged. -/
theorem lookup_dictSet_ne (fs : List (String × Json)) (k k' : String) (v : Json)
    (h : k ≠ k') :
    List.lookup k (dictSet fs k' v) = List.lookup k fs := by
  have hb : (k == k') = false := beq_eq_false_iff_ne.mpr h
  induction fs with
  | nil => simp [dictSet, List.lookup, hb]
  | cons p rest ih =>
    obtain ⟨k'', v''⟩ := p
    by_cases h2 : k'' = k'
    · subst h2
      simp [dictSet, List.lookup, hb]
    · simp [dictSet, h2, List.lookup, ih]

/- ===================== gateway lemmas ===================== -/

/-- With a falsy stored token, an authenticated GET fails before any
request is issued. -/
theorem authorizedGet_not_authenticated (env : Env) (st : ClientState) (url : String)
    (hst : truthy st.token = false) :
    authorizedGet env st url = (.error .notAuthenticated, []) := by
  simp [authorizedGet, get_headers, hst]

/-- Once headers are built, an authenticated GET issues exactly one
request: the GET at its URL with those headers. -/
theorem authorizedGet_trace (env : Env) (st : ClientState) (url : String)
    (hs : List (String × String)) (hh : get_headers st = .ok hs) :
    (authorizedGet env st url).2 = [getRequest url hs] := by
  simp only [authorizedGet, hh]
  split
  · rfl
  · split <;> rfl

/-- A successful authenticated GET implies the headers were built. -/
theorem authorizedGet_ok_headers (env : Env) (st : ClientState) (url : String)
    (j : Json) (h : (authorizedGet env st url).1 = .ok j) :
    ∃ hs, get_headers st = .ok hs := by
  unfold authorizedGet at h
  rcases hh : get_headers st with e | hs
  · rw [hh] at h
    simp at h
  · exact ⟨hs, rfl⟩

/-- In sync mode, `get_identity` is the authenticated GET at the
identity URL. -/
theorem get_identity_eq_core (cfg : ClientConfig) (env : Env) (st : ClientState)
    (hmode : cfg.use_async = false) :
    get_identity cfg env st = authorizedGet env st (identityUrl cfg) := by
  simp [get_identity, hmode]

/-- In sync mode, `get_accounts` is the authenticated GET at the
account-list URL. -/
theorem get_accounts_eq_core (cfg : ClientConfig) (env : Env) (st : ClientState)
    (hmode : cfg.use_async = false) :
    get_accounts cfg env st = authorizedGet env st (accountsUrl cfg) := by
  simp [get_accounts, hmode]

/-- In sync mode, `get_balances` is the authenticated GET at the
balances URL of the given account id. -/
theorem get_balances_eq_core (cfg : ClientConfig) (env : Env) (st : ClientState)
    (aid : Json) (hmode : cfg.use_async = false) :
    get_balances cfg env st aid = authorizedGet env st (balancesUrl cfg aid) := by
  simp [get_balances, hmode]

/-- In sync mode, `get_transactions` is the authenticated GET at the
transactions URL of the given account id. -/
theorem get_transactions_eq_core (cfg : ClientConfig) (env : Env) (st : ClientState)
    (aid : Json) (hmode : cfg.use_async = false) :
    get_transactions cfg env st aid = authorizedGet env st (transactionsUrl cfg aid) := by
  simp [get_transactions, hmode]

/-- Inversion of a successful per-account step: the account was a
dict, both fetches at its id succeeded, the result is the record with
the two keys stored, and the step's trace is the two fetch traces in
order. -/
theorem augmentAccount_ok_inv (cfg : ClientConfig) (env : Env) (st : ClientState)
    (account account' : Json) (tr : List Request)
    (h : augmentAccount cfg env st account = (.ok account', tr)) :
    ∃ fields bal txs,
      account = .obj fields ∧
      (get_balances cfg env st (pyDictGet fields "id")).1 = .ok bal ∧
      (get_transactions cfg env st (pyDictGet fields "id")).1 = .ok txs ∧
      account' = .obj (dictSet (dictSet fields "balances" bal) "transactions" txs) ∧
      tr = (get_balances cfg env st (pyDictGet fields "id")).2 ++
           (get_transactions cfg env st (pyDictGet fields "id")).2 := by
  cases account with
  | obj fields =>
    refine ⟨fields, ?_⟩
    simp only [augmentAccount] at h
    rcases hb : get_balances cfg env st (pyDictGet fields "id") with ⟨rb, trB⟩
    rw [hb] at h
    cases rb with
    | error e => simp at h
    | ok bal =>
      rcases ht : get_transactions cfg env st (pyDictGet fields "id") with ⟨rt, trT⟩
      rw [ht] at h
      cases rt with
      | error e => simp at h
      | ok txs =>
        simp only [Prod.mk.injEq, Except.ok.injEq] at h
        exact ⟨bal, txs, rfl, rfl, rfl, h.1.symm, h.2.symm⟩
  | null => simp [augmentAccount] at h
  | bool b => simp [augmentAccount] at h
  | num n => simp [augmentAccount] at h
  | str s => simp [augmentAccount] at h
  | arr items => simp [augmentAccount] at h

/-- Forward evaluation of a successful per-account step. -/
theorem augmentAccount_eval_ok (cfg : ClientConfig) (env : Env) (st : ClientState)
    (fields : List (String × Json)) (bal txs : Json)
    (hb : (get_balances cfg env st (pyDictGet fields "id")).1 = .ok bal)
    (ht : (get_transactions cfg env st (pyDictGet fields "id")).1 = .ok txs) :
    augmentAccount cfg env st (.obj fields) =
      (.ok (.obj (dictSet (dictSet fields "balances" bal) "transactions" txs)),
       (get_balances cfg env st (pyDictGet fields "id")).2 ++
       (get_transactions cfg env st (pyDictGet fields "id")).2) := by
  simp only [augmentAccount]
  rcases hbp : get_balances cfg env st (pyDictGet fields "id") with ⟨rb, trB⟩
  rw [hbp] at hb
  cases rb with
  | error e => simp at hb
  | ok bal' =>
    rcases htp : get_transactions cfg env st (pyDictGet fields "id") with ⟨rt, trT⟩
    rw [htp] at ht
    cases rt with
    | error e => simp at ht
    | ok txs' =>
      simp only [Except.ok.injEq] at hb ht
      subst hb
      subst ht
      rfl

/-- If every account before position `i` augments successfully and
the account at `i` fails, the whole per-account loop fails with that
first error. -/
theorem collectAccounts_error_of_first (cfg : ClientConfig) (env : Env) (st : ClientState)
    (pre : List Json) (a : Json) (post : List Json) (e : PyError)
    (hpre : ∀ b ∈ pre, ∃ v, (augmentAccount cfg env st b).1 = .ok v)
    (ha : (augmentAccount cfg env st a).1 = .error e) :
    (collectAccounts cfg env st (pre ++ a :: post)).1 = .error e := by
  induction pre with
  | nil =>
    simp only [List.nil_append, collectAccounts]
    rcases hA : augmentAccount cfg env st a with ⟨r, trA⟩
    rw [hA] at ha
    cases r with
    | ok v => simp at ha
    | error e' =>
      simp only [Except.error.injEq] at ha
      subst ha
      rfl
  | cons b pre ih =>
    obtain ⟨v, hv⟩ := hpre b (List.mem_cons_self b pre)
    have hpre' : ∀ b' ∈ pre, ∃ v, (augmentAccount cfg env st b').1 = .ok v :=
      fun b' hb' => hpre b' (List.mem_cons_of_mem b hb')
    simp only [List.cons_append, collectAccounts]
    rcases hB : augmentAccount cfg env st b with ⟨rb, trB⟩
    rw [hB] at hv
    cases rb with
    | error e' => simp at hv
    | ok v' =>
      have hrec := ih hpre'
      rcases hR : collectAccounts cfg env st (pre ++ a :: post) with ⟨rr, trR⟩
      rw [hR] at hrec
      cases rr with
      | ok ys => simp at hrec
      | error e' =>
        simp only [Except.error.injEq] at hrec
        subst hrec
        rfl

/-- Every element of a successful loop result comes from a successful
per-account step on some element of the input list. -/
theorem collectAccounts_ok_mem (cfg : ClientConfig) (env : Env) (st : ClientState)
    (xs ys : List Json) (tr : List Request)
    (h : collectAccounts cfg env st xs = (.ok ys, tr)) :
    ∀ y ∈ ys, ∃ x ∈ xs, (augmentAccount cfg env st x).1 = .ok y := by
  induction xs generalizing ys tr with
  | nil =>
    simp only [collectAccounts, Prod.mk.injEq, Except.ok.injEq] at h
    intro y hy
    rw [← h.1] at hy
    simp at hy
  | cons a rest ih =>
    simp only [collectAccounts] at h
    rcases hA : augmentAccount cfg env st a with ⟨ra, trA⟩
    rw [hA] at h
    cases ra with
    | error e => simp at h
    | ok a' =>
      rcases hR : collectAccounts cfg env st rest with ⟨rr, trR⟩
      rw [hR] at h
      cases rr with
      | error e => simp at h
      | ok ys' =>
        simp only [Prod.mk.injEq, Except.ok.injEq] at h
        intro y hy
        rw [← h.1] at hy
        rcases List.mem_cons.mp hy with rfl | hy'
        · exact ⟨a, List.mem_cons_self a rest, by rw [hA]⟩
        · obtain ⟨x, hx, hx2⟩ := ih ys' trR hR y hy'
          exact ⟨x, List.mem_cons_of_mem a hx, hx2⟩

/-- Trace of a successful loop: for each account in list order, its
balances request followed by its transactions request. -/
theorem collectAccounts_ok_trace (cfg : ClientConfig) (env : Env) (st : ClientState)
    (hs : List (String × String)) (xs ys : List Json) (tr : List Request)
    (hmode : cfg.use_async = false)
    (hh : get_headers st = .ok hs)
    (h : collectAccounts cfg env st xs = (.ok ys, tr)) :
    tr = (xs.map (fun a => [getRequest (balancesUrl cfg (accountIdOf a)) hs,
                            getRequest (transactionsUrl cfg (accountIdOf a)) hs])).flatten := by
  induction xs generalizing ys tr with
  | nil =>
    simp only [collectAccounts, Prod.mk.injEq] at h
    simp [← h.2]
  | cons a rest ih =>
    simp only [collectAccounts] at h
    rcases hA : augmentAccount cfg env st a with ⟨ra, trA⟩
    rw [hA] at h
    cases ra with
    | error e => simp at h
    | ok a' =>
      rcases hR : collectAccounts cfg env st rest with ⟨rr, trR⟩
      rw [hR] at h
      cases rr with
      | error e => simp at h
      | ok ys' =>
        simp only [Prod.mk.injEq, Except.ok.injEq] at h
        obtain ⟨fields, bal, txs, hacc, hbal, htxs, hacc', htr⟩ :=
          augmentAccount_ok_inv cfg env st a a' trA hA
        have hbTr : (get_balances cfg env st (pyDictGet fields "id")).2 =
            [getRequest (balancesUrl cfg (pyDictGet fields "id")) hs] := by
          rw [get_balances_eq_core cfg env st _ hmode]
          exact authorizedGet_trace env st _ hs hh
        have htTr : (get_transactions cfg env st (pyDictGet fields "id")).2 =
            [getRequest (transactionsUrl cfg (pyDictGet fields "id")) hs] := by
          rw [get_transactions_eq_core cfg env st _ hmode]
          exact authorizedGet_trace env st _ hs hh
        have hrest := ih ys' trR hR
        rw [← h.2, htr, hbTr, htTr, hrest, hacc]
        simp [accountIdOf]

/-- Inversion of a successful `collect_all_data` run: the identity
and account-list fetches succeeded (each issuing one request with the
session headers), the account list was iterated, the per-account loop
succeeded producing the result's accounts, and the total trace is the
identity request, then the account-list request, then the loop trace. -/
theorem collect_all_data_ok_inv (cfg : ClientConfig) (env : Env) (st : ClientState)
    (r : AggregatedResult) (tr : List Request)
    (hmode : cfg.use_async = false)
    (h : collect_all_data cfg env st = (.ok r, tr)) :
    ∃ hs accountsJson xs trL,
      get_headers st = .ok hs ∧
      get_identity cfg env st = (.ok r.identity, [getRequest (identityUrl cfg) hs]) ∧
      get_accounts cfg env st = (.ok accountsJson, [getRequest (accountsUrl cfg) hs]) ∧
      pyIter accountsJson = .ok xs ∧
      collectAccounts cfg env st xs = (.ok r.accounts, trL) ∧
      tr = getRequest (identityUrl cfg) hs :: getRequest (accountsUrl cfg) hs :: trL := by
  simp only [collect_all_data, hmode, Bool.false_eq_true, if_false] at h
  split at h
  next e trI heqI => simp at h
  next identity trI heqI =>
    split at h
    next e trA heqA => simp at h
    next accountsJson trA heqA =>
      split at h
      next e heqIt => simp at h
      next xs heqIt =>
        split at h
        next e trL heqL => simp at h
        next augmented trL heqL =>
          have h1 : ({ identity := identity, accounts := augmented } : AggregatedResult) = r := by
            have := congrArg Prod.fst h
            simpa using this
          have h2 : trI ++ trA ++ trL = tr := congrArg Prod.snd h
          have hIok : (authorizedGet env st (identityUrl cfg)).1 = .ok identity := by
            rw [← get_identity_eq_core cfg env st hmode, heqI]
          obtain ⟨hs, hh⟩ := authorizedGet_ok_headers env st (identityUrl cfg) identity hIok
          have hItr : trI = [getRequest (identityUrl cfg) hs] := by
            have h3 := authorizedGet_trace env st (identityUrl cfg) hs hh
            rw [← get_identity_eq_core cfg env st hmode, heqI] at h3
            exact h3
          have hAtr : trA = [getRequest (accountsUrl cfg) hs] := by
            have h3 := authorizedGet_trace env st (accountsUrl cfg) hs hh
            rw [← get_accounts_eq_core cfg env st hmode, heqA] at h3
            exact h3
          refine ⟨hs, accountsJson, xs, trL, hh, ?_, ?_, heqIt, ?_, ?_⟩
          · rw [heqI, hItr, ← h1]
          · rw [heqA, hAtr]
          · rw [heqL, ← h1]
          · rw [← h2, hItr, hAtr]
            simp

/- ===================== claim theorems ===================== -/

/-- Claim C1: for every gateway on which some fetch fails — identity,
the account list, or the balances/transactions fetch of a first
failing account (all earlier accounts having augmented successfully) —
`collect_all_data` aborts: it propagates that first failure to the
caller unchanged and returns no `AggregatedResult` at all. -/
theorem collect_all_data_aborts_on_first_failure
    (cfg : ClientConfig) (env : Env) (st : ClientState) (e : PyError)
    (hmode : cfg.use_async = false)
    (h :
      (get_identity cfg env st).1 = .error e
      ∨ ((∃ idn, (get_identity cfg env st).1 = .ok idn) ∧
         (get_accounts cfg env st).1 = .error e)
      ∨ (∃ idn accountsJson xs pre a post,
          (get_identity cfg env st).1 = .ok idn ∧
          (get_accounts cfg env st).1 = .ok accountsJson ∧
          pyIter accountsJson = .ok xs ∧
          xs = pre ++ a :: post ∧
          (∀ b ∈ pre, ∃ v, (augmentAccount cfg env st b).1 = .ok v) ∧
          (augmentAccount cfg env st a).1 = .error e)) :
    (collect_all_data cfg env st).1 = .error e := by
  simp only [collect_all_data, hmode, Bool.false_eq_true, if_false]
  rcases h with hI | ⟨⟨idn, hI⟩, hA⟩ |
    ⟨idn, accountsJson, xs, pre, a, post, hI, hA, hIt, hxs, hpre, ha⟩
  · rcases hIp : get_identity cfg env st with ⟨ri, trI⟩
    rw [hIp] at hI
    have : ri = .error e := hI
    subst this
    simp
  · rcases hIp : get_identity cfg env st with ⟨ri, trI⟩
    rw [hIp] at hI
    have : ri = .ok idn := hI
    subst this
    rcases hAp : get_accounts cfg env st with ⟨ra, trA⟩
    rw [hAp] at hA
    have : ra = .error e := hA
    subst this
    simp
  · rcases hIp : get_identity cfg env st with ⟨ri, trI⟩
    rw [hIp] at hI
    have : ri = .ok idn := hI
    subst this
    rcases hAp : get_accounts cfg env st with ⟨ra, trA⟩
    rw [hAp] at hA
    have : ra = .ok accountsJson := hA
    subst this
    have hcoll : (collectAccounts cfg env st xs).1 = .error e := by
      rw [hxs]
      exact collectAccounts_error_of_first cfg env st pre a post e hpre ha
    simp [hIt]
    rcases hLp : collectAccounts cfg env st xs with ⟨rl, trL⟩
    rw [hLp] at hcoll
    have : rl = .error e := hcoll
    subst this
    simp

/-- Witness for C1: on a stub gateway with three accounts where the
balances fetch of the second account answers 500, the aggregation
returns exactly that failure and no result. -/
theorem collect_all_data_aborts_on_first_failure_witness :
    (augmentAccount dCfg envFail2 dSt (jAcct "a2")).1 = .error (.httpError 500) ∧
    (collect_all_data dCfg envFail2 dSt).1 = .error (.httpError 500) := by
  refine ⟨rfl, collect_all_data_aborts_on_first_failure dCfg envFail2 dSt (.httpError 500)
    rfl (Or.inr (Or.inr ⟨jIdentity, .arr [jAcct "a1", jAcct "a2", jAcct "a3"],
      [jAcct "a1", jAcct "a2", jAcct "a3"], [jAcct "a1"], jAcct "a2", [jAcct "a3"],
      rfl, rfl, rfl, rfl, ?_, rfl⟩))⟩
  intro b hb
  simp only [List.mem_singleton] at hb
  subst hb
  exact ⟨Json.obj [("id", .str "a1"), ("balances", jBalances), ("transactions", .arr [])], rfl⟩

/-- Claim C2: on every successful run, `collect_all_data` issues its
requests in exactly this order: identity first, then the account
list, then for each account in the list's original order that
account's balances request followed by its transactions request (the
source is strictly sequential, so each call completes before the next
is issued). -/
theorem collect_all_data_request_order
    (cfg : ClientConfig) (env : Env) (st : ClientState)
    (r : AggregatedResult) (tr : List Request)
    (hmode : cfg.use_async = false)
    (h : collect_all_data cfg env st = (.ok r, tr)) :
    ∃ hs accountsJson xs,
      get_headers st = .ok hs ∧
      (get_accounts cfg env st).1 = .ok accountsJson ∧
      pyIter accountsJson = .ok xs ∧
      tr = getRequest (identityUrl cfg) hs :: getRequest (accountsUrl cfg) hs ::
        (xs.map (fun a => [getRequest (balancesUrl cfg (accountIdOf a)) hs,
                           getRequest (transactionsUrl cfg (accountIdOf a)) hs])).flatten := by
  obtain ⟨hs, accountsJson, xs, trL, hh, hI, hA, hIt, hL, htr⟩ :=
    collect_all_data_ok_inv cfg env st r tr hmode h
  refine ⟨hs, accountsJson, xs, hh, by rw [hA], hIt, ?_⟩
  rw [htr, collectAccounts_ok_trace cfg env st hs xs r.accounts trL hmode hh hL]

/-- Witness for C2: the all-success stub run issues exactly the six
requests identity, account list, balances(a1), transactions(a1),
balances(a2), transactions(a2), in that order. -/
theorem collect_all_data_request_order_witness :
    collect_all_data dCfg envOk dSt = (.ok dResOk, dTrOk) ∧
    ∃ hs accountsJson xs,
      get_headers dSt = .ok hs ∧
      (get_accounts dCfg envOk dSt).1 = .ok accountsJson ∧
      pyIter accountsJson = .ok xs ∧
      dTrOk = getRequest (identityUrl dCfg) hs :: getRequest (accountsUrl dCfg) hs ::
        (xs.map (fun a => [getRequest (balancesUrl dCfg (accountIdOf a)) hs,
                           getRequest (transactionsUrl dCfg (accountIdOf a)) hs])).flatten :=
  ⟨rfl, collect_all_data_request_order dCfg envOk dSt dResOk dTrOk rfl rfl⟩

/-- Claim C3: on every successful run of `collect_all_data`, every
account record in the result carries both a `balances` and a
`transactions` key, and the value under each equals exactly what the
standalone per-account fetch (`get_balances` / `get_transactions` at
the record's id, which the augmentation leaves unchanged) returns on
the same gateway. -/
theorem collect_all_data_accounts_complete
    (cfg : ClientConfig) (env : Env) (st : ClientState)
    (r : AggregatedResult) (tr : List Request)
    (hmode : cfg.use_async = false)
    (h : collect_all_data cfg env st = (.ok r, tr)) :
    ∀ a ∈ r.accounts, ∃ bal txs,
      jsonField a "balances" = some bal ∧
      jsonField a "transactions" = some txs ∧
      (get_balances cfg env st (accountIdOf a)).1 = .ok bal ∧
      (get_transactions cfg env st (accountIdOf a)).1 = .ok txs := by
  obtain ⟨hs, accountsJson, xs, trL, hh, hI, hA, hIt, hL, htr⟩ :=
    collect_all_data_ok_inv cfg env st r tr hmode h
  intro a ha
  obtain ⟨x, hx, hx2⟩ := collectAccounts_ok_mem cfg env st xs r.accounts trL hL a ha
  have hfull : augmentAccount cfg env st x = (.ok a, (augmentAccount cfg env st x).2) :=
    Prod.ext hx2 rfl
  obtain ⟨fields, bal, txs, hfx, hbal, htxs, haug, htrx⟩ :=
    augmentAccount_ok_inv cfg env st x a _ hfull
  have hid : accountIdOf a = pyDictGet fields "id" := by
    rw [haug]
    simp only [accountIdOf, pyDictGet]
    rw [lookup_dictSet_ne _ _ _ _ (by decide), lookup_dictSet_ne _ _ _ _ (by decide)]
  refine ⟨bal, txs, ?_, ?_, ?_, ?_⟩
  · rw [haug]
    simp only [jsonField]
    rw [lookup_dictSet_ne _ _ _ _ (by decide), lookup_dictSet_self]
  · rw [haug]
    simp only [jsonField]
    rw [lookup_dictSet_self]
  · rw [hid]
    exact hbal
  · rw [hid]
    exact htxs

/-- Witness for C3: on the all-success stub run, both augmented
accounts carry `balances` and `transactions` equal to the standalone
fetches. -/
theorem collect_all_data_accounts_complete_witness :
    collect_all_data dCfg envOk dSt = (.ok dResOk, dTrOk) ∧
    ∀ a ∈ dResOk.accounts, ∃ bal txs,
      jsonField a "balances" = some bal ∧
      jsonField a "transactions" = some txs ∧
      (get_balances dCfg envOk dSt (accountIdOf a)).1 = .ok bal ∧
      (get_transactions dCfg envOk dSt (accountIdOf a)).1 = .ok txs :=
  ⟨rfl, collect_all_data_accounts_complete dCfg envOk dSt dResOk dTrOk rfl rfl⟩

/-- Claim C4 (counterexample): the claim says the augmentation is a
copy/extend and the record the gateway returned is left unchanged.
On this concrete run the record the gateway returned (an empty dict)
ends the aggregation carrying the two extra keys — the loop assigns
into the record in place, so the original record is changed. -/
theorem collect_mutates_account_counterexample :
    accountRecordAfterLoop dCfg envNoId dSt [] =
      .ok [("balances", jBalances), ("transactions", .arr [])] ∧
    [("balances", jBalances), ("transactions", Json.arr [])] ≠ ([] : List (String × Json)) :=
  ⟨rfl, by simp⟩

/-- Claim C4 (amended): `collect_all_data` attaches `balances` and
`transactions` by mutating each account record in place: the record
placed in the result is exactly the final contents of the record the
gateway returned (they alias one object), and whenever the original
record lacked a `balances` key the aggregation changes it rather than
leaving it untouched. -/
theorem collect_augments_in_place
    (cfg : ClientConfig) (env : Env) (st : ClientState) (fields : List (String × Json)) :
    (augmentAccount cfg env st (.obj fields)).1 =
      Except.map Json.obj (accountRecordAfterLoop cfg env st fields) ∧
    (∀ fs', accountRecordAfterLoop cfg env st fields = .ok fs' →
      List.lookup "balances" fields = none → fs' ≠ fields) := by
  constructor
  · simp only [augmentAccount, accountRecordAfterLoop]
    rcases hb : get_balances cfg env st (pyDictGet fields "id") with ⟨rb, trB⟩
    cases rb with
    | error e => rfl
    | ok bal =>
      rcases ht : get_transactions cfg env st (pyDictGet fields "id") with ⟨rt, trT⟩
      cases rt <;> rfl
  · intro fs' hfs hnone
    simp only [accountRecordAfterLoop] at hfs
    split at hfs
    · exact absurd hfs (by simp)
    · rename_i bal heqb
      split at hfs
      · exact absurd hfs (by simp)
      · rename_i txs heqt
        simp only [Except.ok.injEq] at hfs
        subst hfs
        intro hEq
        have h1 : List.lookup "balances"
            (dictSet (dictSet fields "balances" bal) "transactions" txs) = some bal := by
          rw [lookup_dictSet_ne _ _ _ _ (by decide), lookup_dictSet_self]
        rw [hEq, hnone] at h1
        exact Option.noConfusion h1

/-- Witness for the amended C4: on the concrete run the result entry
equals the mutated record, and that mutated record differs from the
original (empty) one. -/
theorem collect_augments_in_place_witness :
    (augmentAccount dCfg envNoId dSt (.obj [])).1 =
      Except.map Json.obj (accountRecordAfterLoop dCfg envNoId dSt []) ∧
    dictSet (dictSet [] "balances" jBalances) "transactions" (Json.arr []) ≠
      ([] : List (String × Json)) :=
  ⟨(collect_augments_in_place dCfg envNoId dSt []).1,
   (collect_augments_in_place dCfg envNoId dSt []).2
     (dictSet (dictSet [] "balances" jBalances) "transactions" (Json.arr [])) rfl rfl⟩

/-- Claim C5 (counterexample): on a 2xx token response whose body
lacks `access_token`, `authenticate` does NOT fail — it returns `None`
and stores no token — refuting the claim that it fails with
AuthenticationFailed on such a malformed body and never succeeds
without an access token. -/
theorem authenticate_missing_token_counterexample :
    (authenticate dCfg envNoToken initState).1 =
      .ok (Json.null, { token := .null, token_type := .str "mytype" }) := rfl

/-- Claim C5 (amended): `authenticate` fails with the HTTP error
(AuthenticationFailed) whenever the token endpoint answers 4xx/5xx,
but a 2xx response whose object body lacks `access_token` does not
fail: `authenticate` succeeds returning `None`, stores `None` as the
token, and leaves the client unauthenticated — it never yields a
usable session without an access token. -/
theorem authenticate_failure_modes
    (cfg : ClientConfig) (env : Env) (st : ClientState)
    (hmode : cfg.use_async = false) :
    (400 ≤ (env (authRequest cfg)).status → (env (authRequest cfg)).status < 600 →
      (authenticate cfg env st).1 = .error (.httpError (env (authRequest cfg)).status)) ∧
    (∀ fields, 200 ≤ (env (authRequest cfg)).status → (env (authRequest cfg)).status < 300 →
      (env (authRequest cfg)).jsonBody = some (.obj fields) →
      List.lookup "access_token" fields = none →
      ∃ st', (authenticate cfg env st).1 = .ok (.null, st') ∧ st'.token = .null ∧
        (get_identity cfg env st').1 = .error .notAuthenticated) := by
  constructor
  · intro h4 h6
    simp [authenticate, hmode, authenticateCore, raiseForStatus, h4, h6]
  · intro fields h2a h2b hbody hmiss
    have hns : ¬(400 ≤ (env (authRequest cfg)).status ∧
        (env (authRequest cfg)).status < 600) := by
      intro hc
      have := hc.1
      omega
    refine ⟨⟨Json.null, pyDictGetD fields "token_type" (.str "bearer")⟩, ?_, rfl, ?_⟩
    · simp [authenticate, hmode, authenticateCore, raiseForStatus, hns, hbody,
        pyDictGet, hmiss]
    · have hg := authorizedGet_not_authenticated env
        ⟨Json.null, pyDictGetD fields "token_type" (.str "bearer")⟩ (identityUrl cfg) rfl
      rw [get_identity_eq_core cfg env _ hmode, hg]

/-- Witness for the amended C5: a 401 from the token endpoint is
propagated as a failure, while a 2xx body lacking `access_token`
yields a `None` result and an unauthenticated client. -/
theorem authenticate_failure_modes_witness :
    (authenticate dCfg envAuthReject dSt).1 = .error (.httpError 401) ∧
    (∃ st', (authenticate dCfg envNoToken initState).1 = .ok (.null, st') ∧
      st'.token = .null ∧
      (get_identity dCfg envNoToken st').1 = .error .notAuthenticated) :=
  ⟨(authenticate_failure_modes dCfg envAuthReject dSt rfl).1 (by decide) (by decide),
   (authenticate_failure_modes dCfg envNoToken initState rfl).2
     [("token_type", .str "mytype")] (by decide) (by decide) rfl rfl⟩

/-- Claim C6: before any successful authenticate the stored token is
still `None`, and every authenticated operation — invoked in the
instance's own scheduling mode — fails with NotAuthenticated and
issues no network request (the headers are built, and fail, before
the session is used). -/
theorem ops_before_auth_fail_not_authenticated
    (cfg : ClientConfig) (env : Env) (st : ClientState) (aid : Json)
    (htok : st.token = .null) :
    (cfg.use_async = false →
      get_identity cfg env st = (.error .notAuthenticated, []) ∧
      get_accounts cfg env st = (.error .notAuthenticated, []) ∧
      get_account cfg env st aid = (.error .notAuthenticated, []) ∧
      get_balances cfg env st aid = (.error .notAuthenticated, []) ∧
      get_transactions cfg env st aid = (.error .notAuthenticated, [])) ∧
    (cfg.use_async = true →
      get_identity_async cfg env st = (.error .notAuthenticated, []) ∧
      get_accounts_async cfg env st = (.error .notAuthenticated, []) ∧
      get_account_async cfg env st aid = (.error .notAuthenticated, []) ∧
      get_balances_async cfg env st aid = (.error .notAuthenticated, []) ∧
      get_transactions_async cfg env st aid = (.error .notAuthenticated, [])) := by
  have ht : truthy st.token = false := by rw [htok]; rfl
  have hg : ∀ url, authorizedGet env st url = (.error .notAuthenticated, []) :=
    fun url => authorizedGet_not_authenticated env st url ht
  constructor
  · intro hmode
    exact ⟨by simp [get_identity, hmode, hg], by simp [get_accounts, hmode, hg],
      by simp [get_account, hmode, hg], by simp [get_balances, hmode, hg],
      by simp [get_transactions, hmode, hg]⟩
  · intro hmode
    exact ⟨by simp [get_identity_async, hmode, hg], by simp [get_accounts_async, hmode, hg],
      by simp [get_account_async, hmode, hg], by simp [get_balances_async, hmode, hg],
      by simp [get_transactions_async, hmode, hg]⟩

/-- Witness for C6: on a freshly constructed client (sync and async),
operations fail NotAuthenticated with an empty request trace. -/
theorem ops_before_auth_fail_not_authenticated_witness :
    initState.token = .null ∧
    get_identity dCfg envOk initState = (.error .notAuthenticated, []) ∧
    get_balances_async dCfgAsync envOk initState (.str "a1") = (.error .notAuthenticated, []) :=
  ⟨rfl,
   ((ops_before_auth_fail_not_authenticated dCfg envOk initState (.str "a1") rfl).1 rfl).1,
   ((ops_before_auth_fail_not_authenticated dCfgAsync envOk initState
      (.str "a1") rfl).2 rfl).2.2.2.1⟩

/-- Claim C7 (counterexample): with a 2xx token response carrying
`access_token: ""`, `authenticate` succeeds and stores exactly that
empty token, but the next operation carries NO Authorization header —
it issues no request at all and fails NotAuthenticated, because
`_get_headers` treats the falsy token as absent.  This refutes the
claim that after every successful authenticate subsequent requests
carry `Authorization: token_type token`. -/
theorem authenticate_empty_token_counterexample :
    (authenticate dCfg envEmptyToken initState).1 =
      .ok (.str "", { token := .str "", token_type := .str "bearer" }) ∧
    get_identity dCfg envEmptyToken { token := .str "", token_type := .str "bearer" } =
      (.error .notAuthenticated, []) :=
  ⟨rfl, rfl⟩

/-- Claim C7 (amended): for every successful authenticate call the
stored token equals exactly the response's `access_token` field and
the stored token type equals exactly its `token_type` field (the
string `"bearer"` when absent); subsequent requests carry the header
`Authorization: token_type token` provided the stored token is
truthy — an empty (falsy) `access_token` is stored faithfully but
leaves the client unauthenticated instead. -/
theorem authenticate_stores_response_token
    (cfg : ClientConfig) (env : Env) (st : ClientState)
    (fields : List (String × Json)) (t : Json)
    (hmode : cfg.use_async = false)
    (h2a : 200 ≤ (env (authRequest cfg)).status)
    (h2b : (env (authRequest cfg)).status < 300)
    (hbody : (env (authRequest cfg)).jsonBody = some (.obj fields))
    (htok : List.lookup "access_token" fields = some t) :
    ∃ st',
      (authenticate cfg env st).1 = .ok (t, st') ∧
      st'.token = t ∧
      st'.token_type = (List.lookup "token_type" fields).getD (.str "bearer") ∧
      (truthy t = true →
        (get_identity cfg env st').2 =
          [getRequest (identityUrl cfg)
            [("Authorization", pyStr st'.token_type ++ " " ++ pyStr t),
             ("Content-Type", "application/json")]]) := by
  have hns : ¬(400 ≤ (env (authRequest cfg)).status ∧
      (env (authRequest cfg)).status < 600) := by
    intro hc
    have := hc.1
    omega
  refine ⟨⟨pyDictGet fields "access_token", pyDictGetD fields "token_type" (.str "bearer")⟩,
    ?_, ?_, ?_, ?_⟩
  · simp [authenticate, hmode, authenticateCore, raiseForStatus, hns, hbody,
      pyDictGet, htok]
  · simp [pyDictGet, htok]
  · simp [pyDictGetD]
  · intro htr
    have hh : get_headers
        ⟨pyDictGet fields "access_token", pyDictGetD fields "token_type" (.str "bearer")⟩ =
        .ok [("Authorization",
                pyStr (pyDictGetD fields "token_type" (.str "bearer")) ++ " " ++
                pyStr (pyDictGet fields "access_token")),
             ("Content-Type", "application/json")] := by
      simp [get_headers, pyDictGet, htok, htr]
    rw [get_identity_eq_core cfg env _ hmode,
        authorizedGet_trace env _ (identityUrl cfg) _ hh]
    simp [pyDictGet, pyDictGetD, htok]

/-- Witness for the amended C7: a 2xx token response with
`access_token: "tok"` stores exactly that token and `"bearer"`, and
the next request carries `Authorization: bearer tok`. -/
theorem authenticate_stores_response_token_witness :
    200 ≤ (envGoodToken (authRequest dCfg)).status ∧
    ∃ st',
      (authenticate dCfg envGoodToken initState).1 = .ok (.str "tok", st') ∧
      st'.token = .str "tok" ∧
      st'.token_type = (List.lookup "token_type"
        [("access_token", Json.str "tok"), ("token_type", Json.str "bearer")]).getD
        (.str "bearer") ∧
      (truthy (.str "tok") = true →
        (get_identity dCfg envGoodToken st').2 =
          [getRequest (identityUrl dCfg)
            [("Authorization", pyStr st'.token_type ++ " " ++ pyStr (.str "tok")),
             ("Content-Type", "application/json")]]) :=
  ⟨by decide,
   authenticate_stores_response_token dCfg envGoodToken initState
     [("access_token", .str "tok"), ("token_type", .str "bearer")] (.str "tok")
     rfl (by decide) (by decide) rfl rfl⟩

/-- Claim C8: the scheduling mode is fixed at construction and the
two operation sets are not mixable: every blocking-mode operation
(authenticate, the five fetches, collect_all_data) invoked on a
suspending-mode instance fails with the ModeMismatch RuntimeError
before doing anything, and symmetrically every suspending-mode
operation fails on a blocking-mode instance. -/
theorem mode_mismatch_on_wrong_mode
    (cfg : ClientConfig) (env : Env) (st : ClientState) (aid : Json) :
    (cfg.use_async = true →
      authenticate cfg env st =
        (.error (.modeMismatch "Use authenticate_async for async mode"), []) ∧
      get_identity cfg env st =
        (.error (.modeMismatch "Use get_identity_async for async mode"), []) ∧
      get_accounts cfg env st =
        (.error (.modeMismatch "Use get_accounts_async for async mode"), []) ∧
      get_account cfg env st aid =
        (.error (.modeMismatch "Use get_account_async for async mode"), []) ∧
      get_balances cfg env st aid =
        (.error (.modeMismatch "Use get_balances_async for async mode"), []) ∧
      get_transactions cfg env st aid =
        (.error (.modeMismatch "Use get_transactions_async for async mode"), []) ∧
      collect_all_data cfg env st =
        (.error (.modeMismatch "Use collect_all_data_async for async mode"), [])) ∧
    (cfg.use_async = false →
      authenticate_async cfg env st =
        (.error (.modeMismatch "Use authenticate for sync mode"), []) ∧
      get_identity_async cfg env st =
        (.error (.modeMismatch "Use get_identity for sync mode"), []) ∧
      get_accounts_async cfg env st =
        (.error (.modeMismatch "Use get_accounts for sync mode"), []) ∧
      get_account_async cfg env st aid =
        (.error (.modeMismatch "Use get_account for sync mode"), []) ∧
      get_balances_async cfg env st aid =
        (.error (.modeMismatch "Use get_balances for sync mode"), []) ∧
      get_transactions_async cfg env st aid =
        (.error (.modeMismatch "Use get_transactions for sync mode"), []) ∧
      collect_all_data_async cfg env st =
        (.error (.modeMismatch "Use collect_all_data for sync mode"), [])) := by
  constructor
  · intro hmode
    refine ⟨?_, ?_, ?_, ?_, ?_, ?_, ?_⟩ <;>
      simp [authenticate, get_identity, get_accounts, get_account, get_balances,
        get_transactions, collect_all_data, hmode]
  · intro hmode
    refine ⟨?_, ?_, ?_, ?_, ?_, ?_, ?_⟩ <;>
      simp [authenticate_async, get_identity_async, get_accounts_async, get_account_async,
        get_balances_async, get_transactions_async, collect_all_data_async, hmode]

/-- Witness for C8: concrete instances of both modes reject the
wrong-mode aggregation entry points. -/
theorem mode_mismatch_on_wrong_mode_witness :
    dCfgAsync.use_async = true ∧
    collect_all_data dCfgAsync envOk dSt =
      (.error (.modeMismatch "Use collect_all_data_async for async mode"), []) ∧
    collect_all_data_async dCfg envOk dSt =
      (.error (.modeMismatch "Use collect_all_data for sync mode"), []) :=
  ⟨rfl,
   ((mode_mismatch_on_wrong_mode dCfgAsync envOk dSt (.str "a")).1 rfl).2.2.2.2.2.2,
   ((mode_mismatch_on_wrong_mode dCfg envOk dSt (.str "a")).2 rfl).2.2.2.2.2.2⟩

/-- Claim C9: a 2xx token response lacking `access_token` makes
`authenticate` return `None` and store `None` as the token, so every
subsequent authenticated operation fails NotAuthenticated with no
request issued — exactly the initial (never-authenticated) token
state. -/
theorem authenticate_missing_token_is_noop
    (cfg : ClientConfig) (env : Env) (st : ClientState) (fields : List (String × Json))
    (hmode : cfg.use_async = false)
    (h2a : 200 ≤ (env (authRequest cfg)).status)
    (h2b : (env (authRequest cfg)).status < 300)
    (hbody : (env (authRequest cfg)).jsonBody = some (.obj fields))
    (hmiss : List.lookup "access_token" fields = none) :
    ∃ st',
      authenticate cfg env st = (.ok (.null, st'), [authRequest cfg]) ∧
      st'.token = .null ∧
      st'.token = initState.token ∧
      get_identity cfg env st' = (.error .notAuthenticated, []) ∧
      get_accounts cfg env st' = (.error .notAuthenticated, []) ∧
      (∀ aid, get_account cfg env st' aid = (.error .notAuthenticated, [])) ∧
      (∀ aid, get_balances cfg env st' aid = (.error .notAuthenticated, [])) ∧
      (∀ aid, get_transactions cfg env st' aid = (.error .notAuthenticated, [])) := by
  have hns : ¬(400 ≤ (env (authRequest cfg)).status ∧
      (env (authRequest cfg)).status < 600) := by
    intro hc
    have := hc.1
    omega
  have hg : ∀ url, authorizedGet env
      ⟨Json.null, pyDictGetD fields "token_type" (.str "bearer")⟩ url =
      (.error .notAuthenticated, []) :=
    fun url => authorizedGet_not_authenticated env _ url rfl
  refine ⟨⟨Json.null, pyDictGetD fields "token_type" (.str "bearer")⟩, ?_, rfl, rfl,
    by simp [get_identity, hmode, hg], by simp [get_accounts, hmode, hg],
    fun aid => by simp [get_account, hmode, hg],
    fun aid => by simp [get_balances, hmode, hg],
    fun aid => by simp [get_transactions, hmode, hg]⟩
  simp [authenticate, hmode, authenticateCore, raiseForStatus, hns, hbody,
    pyDictGet, hmiss]

/-- Witness for C9: on the stub token endpoint lacking
`access_token`, even a previously authenticated client ends up
unauthenticated again. -/
theorem authenticate_missing_token_is_noop_witness :
    200 ≤ (envNoToken (authRequest dCfg)).status ∧
    ∃ st',
      authenticate dCfg envNoToken dSt = (.ok (.null, st'), [authRequest dCfg]) ∧
      st'.token = .null ∧
      st'.token = initState.token ∧
      get_identity dCfg envNoToken st' = (.error .notAuthenticated, []) ∧
      get_accounts dCfg envNoToken st' = (.error .notAuthenticated, []) ∧
      (∀ aid, get_account dCfg envNoToken st' aid = (.error .notAuthenticated, [])) ∧
      (∀ aid, get_balances dCfg envNoToken st' aid = (.error .notAuthenticated, [])) ∧
      (∀ aid, get_transactions dCfg envNoToken st' aid = (.error .notAuthenticated, [])) :=
  ⟨by decide,
   authenticate_missing_token_is_noop dCfg envNoToken dSt [("token_type", .str "mytype")]
     rfl (by decide) (by decide) rfl rfl⟩

/-- Claim C10: an account record lacking an `id` key does not make
the aggregation fail: the loop body of `collect_all_data` (run by
`collectAccounts` on each fetched account) extracts `None` as the id
and still issues the balances and transactions fetches, whose URLs
contain the literal path segment `None`, then augments the record as
usual. -/
theorem missing_id_fetches_none_urls
    (cfg : ClientConfig) (env : Env) (st : ClientState)
    (fields : List (String × Json)) (hs : List (String × String)) (bal txs : Json)
    (hid : List.lookup "id" fields = none)
    (hmode : cfg.use_async = false)
    (hh : get_headers st = .ok hs)
    (hb : (get_balances cfg env st Json.null).1 = .ok bal)
    (ht : (get_transactions cfg env st Json.null).1 = .ok txs) :
    pyDictGet fields "id" = Json.null ∧
    balancesUrl cfg Json.null = cfg.base_url ++ "/stet/account/None/balance" ∧
    transactionsUrl cfg Json.null = cfg.base_url ++ "/stet/account/None/transaction" ∧
    augmentAccount cfg env st (.obj fields) =
      (.ok (.obj (dictSet (dictSet fields "balances" bal) "transactions" txs)),
       [getRequest (balancesUrl cfg Json.null) hs,
        getRequest (transactionsUrl cfg Json.null) hs]) ∧
    collectAccounts cfg env st [.obj fields] =
      (.ok [.obj (dictSet (dictSet fields "balances" bal) "transactions" txs)],
       [getRequest (balancesUrl cfg Json.null) hs,
        getRequest (transactionsUrl cfg Json.null) hs]) := by
  have hidn : pyDictGet fields "id" = Json.null := by
    simp [pyDictGet, hid]
  have haug := augmentAccount_eval_ok cfg env st fields bal txs
    (by rw [hidn]; exact hb) (by rw [hidn]; exact ht)
  rw [hidn, get_balances_eq_core cfg env st _ hmode,
      get_transactions_eq_core cfg env st _ hmode,
      authorizedGet_trace env st _ hs hh, authorizedGet_trace env st _ hs hh] at haug
  refine ⟨hidn, rfl, rfl, haug, ?_⟩
  simp [collectAccounts, haug]

/-- Witness for C10: the stub account list holding one record with no
`id` leads to successful fetches at the `.../stet/account/None/...`
URLs and a fully augmented record. -/
theorem missing_id_fetches_none_urls_witness :
    List.lookup "id" ([] : List (String × Json)) = none ∧
    augmentAccount dCfg envNoId dSt (.obj []) =
      (.ok (.obj (dictSet (dictSet [] "balances" jBalances) "transactions" (.arr []))),
       [getRequest (balancesUrl dCfg Json.null) dHeaders,
        getRequest (transactionsUrl dCfg Json.null) dHeaders]) :=
  ⟨rfl,
   (missing_id_fetches_none_urls dCfg envNoId dSt [] dHeaders jBalances (.arr [])
     rfl rfl rfl rfl rfl).2.2.2.1⟩

end BankingApi
